import Mathlib

/-!
Verification of the WasmEdge GC executor slice: the type model and subtype
matcher (`ast/type.h`, embedded in `lib/loader/serialize/serial_section.cpp`),
the GC instruction handlers (`Executor::run*Op`), the struct instance
(`runtime/instance/struct.h`) and the memory bound check
(`runtime/instance/memory.h`).  Machine integers are modelled as `Nat` with
explicit `% 2 ^ w` where wraparound matters; the possibly non-terminating
recursion of `AST::TypeMatcher::matchType` is modelled with an explicit fuel
parameter (`none` = the recursion did not finish within the fuel bound).
-/

namespace WasmEdge

/-- Error codes raised by the modelled operations (`common/errcode.h`). -/
inductive ErrCode where
  | CastNullToNonNull
  | LengthOutOfBounds
  | MemoryOutOfBounds
deriving DecidableEq

/-- The `TypeCode` enumeration, restricted to the codes the covered sources
use: numeric and packed codes, reference tags, composite tags and the
abstract heap type codes. -/
inductive TypeCode where
  | I8
  | I16
  | I32
  | I64
  | F32
  | F64
  | V128
  | Ref
  | RefNull
  | Func
  | Struct
  | Array
  | AnyRef
  | EqRef
  | I31Ref
  | StructRef
  | ArrayRef
  | NullRef
  | FuncRef
  | NullFunc
  | ExternRef
  | NullExtern
deriving DecidableEq, Fintype

/-- Modelled from the spec: `HeapType` (spec section 3) is an abstract code or
a defined-type index into the module's type list (`common/types.h` is not in
the provided sources). -/
inductive HeapType where
  | abs (code : TypeCode)
  | defined (idx : Nat)
deriving DecidableEq

/-- Modelled from the spec: `ValType` (spec section 3) is a numeric, vector or
packed code, or a reference with a nullability flag and a heap type
(`common/types.h` is not in the provided sources). -/
inductive ValType where
  | num (code : TypeCode)
  | ref (nullable : Bool) (heap : HeapType)
deriving DecidableEq

instance : Inhabited ValType := ⟨ValType.num TypeCode.I32⟩

/-- `ValType::isRefType`. -/
def ValType.isRefType : ValType → Bool
  | .ref _ _ => true
  | .num _ => false

/-- `ValType::isNullableRefType`. -/
def ValType.isNullableRefType : ValType → Bool
  | .ref true _ => true
  | _ => false

/-- `ValType::isAbsHeapType`. -/
def ValType.isAbsHeapType : ValType → Bool
  | .ref _ (.abs _) => true
  | _ => false

/-- `ValType::getCode`: the stored code; `Ref` / `RefNull` for references. -/
def ValType.getCode : ValType → TypeCode
  | .num c => c
  | .ref true _ => TypeCode.RefNull
  | .ref false _ => TypeCode.Ref

/-- `ValType::getHeapTypeCode`: the abstract heap code of a reference (only
consulted under `isAbsHeapType`). -/
def ValType.getHeapTypeCode : ValType → TypeCode
  | .ref _ (.abs c) => c
  | .ref _ (.defined _) => TypeCode.Ref
  | .num c => c

/-- `ValType::getTypeIndex`: the defined-type index of a reference (only
consulted when the heap type is a type index). -/
def ValType.getTypeIndex : ValType → Nat
  | .ref _ (.defined i) => i
  | _ => 0

/-- `ValType::isPackType`: the storage-only packed codes `I8` and `I16`. -/
def ValType.isPackType : ValType → Bool
  | .num TypeCode.I8 => true
  | .num TypeCode.I16 => true
  | _ => false

/-- Modelled from the spec: `bitWidth(code)` of spec section 4.2
(`ValType::getBitWidth` of `common/types.h` is not in the provided sources). -/
def ValType.getBitWidth : ValType → Nat
  | .num TypeCode.I8 => 8
  | .num TypeCode.I16 => 16
  | .num TypeCode.I32 => 32
  | .num TypeCode.I64 => 64
  | .num TypeCode.F32 => 32
  | .num TypeCode.F64 => 64
  | .num TypeCode.V128 => 128
  | _ => 0

/-- Modelled from the spec: `toNonNullable(ValType)` of spec section 4.2
(`ValType::toNonNullableRef` of `common/types.h` is not in the provided
sources): clear the nullability of a reference, identity on others. -/
def toNonNullableRef : ValType → ValType
  | .ref _ h => .ref false h
  | .num c => .num c

/-- Field mutability (`ValMut`). -/
inductive ValMut where
  | Const
  | Var
deriving DecidableEq

/-- `AST::FieldType`: a storage type and a mutability. -/
structure FieldType where
  storage : ValType
  valMut : ValMut
deriving DecidableEq

instance : Inhabited FieldType := ⟨⟨default, ValMut.Const⟩⟩

/-- `AST::FunctionType`: parameter and result type vectors. -/
structure FunctionType where
  paramTypes : List ValType
  returnTypes : List ValType
deriving DecidableEq

/-- `AST::CompositeType`: a function, struct or array body. -/
inductive CompositeType where
  | Func (fType : FunctionType)
  | Struct (fieldTypes : List FieldType)
  | Array (fieldType : FieldType)
deriving DecidableEq

/-- `CompositeType::getFieldTypes` (an array body is stored as a one-element
field vector in the source). -/
def CompositeType.getFieldTypes : CompositeType → List FieldType
  | .Struct fs => fs
  | .Array f => [f]
  | .Func _ => []

/-- `CompositeType::expand`. -/
def CompositeType.expand : CompositeType → TypeCode
  | .Func _ => TypeCode.FuncRef
  | .Struct _ => TypeCode.StructRef
  | .Array _ => TypeCode.ArrayRef

/-- `AST::SubType`: final flag, supertype indices, composite body. -/
structure SubType where
  isFinal : Bool
  typeIndices : List Nat
  compositeType : CompositeType
deriving DecidableEq

instance : Inhabited SubType := ⟨⟨true, [], CompositeType.Struct []⟩⟩

/-- `AST::TypeMatcher::matchType(TypeCode, TypeCode)`
(`serial_section.cpp` lines 544-581): the abstract heap-type lattice. -/
def TypeMatcher.matchTypeCode (exp got : TypeCode) : Bool :=
  if exp = got then true
  else if exp = TypeCode.FuncRef ∨ exp = TypeCode.NullFunc then
    decide (got = TypeCode.NullFunc)
  else if got = TypeCode.FuncRef ∨ got = TypeCode.NullFunc then false
  else if exp = TypeCode.ExternRef ∨ exp = TypeCode.NullExtern then
    decide (got = TypeCode.NullExtern)
  else if got = TypeCode.ExternRef ∨ got = TypeCode.NullExtern then false
  else
    match exp with
    | TypeCode.I31Ref => decide (got = TypeCode.NullRef)
    | TypeCode.StructRef => decide (got = TypeCode.NullRef)
    | TypeCode.ArrayRef => decide (got = TypeCode.NullRef)
    | TypeCode.EqRef => decide (got ≠ TypeCode.AnyRef)
    | TypeCode.AnyRef => true
    | _ => false

/-- One pending call of the mutually recursive `AST::TypeMatcher::matchType`
overloads (`serial_section.cpp` lines 423-597): defined-type index pair, the
supertype-index loop, composite pair, struct field loop, field pair, value
type pair, and value type lists. -/
inductive MatchTask where
  | idx (expL : List SubType) (expIdx : Nat) (gotL : List SubType) (gotIdx : Nat)
  | idxLoop (expL : List SubType) (expIdx : Nat) (gotL : List SubType) (tidxs : List Nat)
  | comp (expL : List SubType) (exp : CompositeType) (gotL : List SubType) (got : CompositeType)
  | fieldsLoop (expL : List SubType) (expFs : List FieldType) (gotL : List SubType) (gotFs : List FieldType)
  | fld (expL : List SubType) (exp : FieldType) (gotL : List SubType) (got : FieldType)
  | val (expL : List SubType) (exp : ValType) (gotL : List SubType) (got : ValType)
  | vals (expL : List SubType) (exps : List ValType) (gotL : List SubType) (gots : List ValType)

/-- Fuel-indexed unfolding of the `AST::TypeMatcher::matchType` recursion.
Every nested call costs one unit of fuel; `none` means the recursion did not
complete within the bound.  The source recursion itself carries no such bound:
a `none` for every fuel value is a non-terminating source computation. -/
def matchRun : Nat → MatchTask → Option Bool
  | 0, _ => none
  | fuel + 1, task =>
    match task with
    | .idx expL expIdx gotL gotIdx =>
      if expIdx = gotIdx then some true
      else
        match matchRun fuel (.idxLoop expL expIdx gotL (gotL.getD gotIdx default).typeIndices) with
        | none => none
        | some true => some true
        | some false =>
          matchRun fuel (.comp expL (expL.getD expIdx default).compositeType
            gotL (gotL.getD gotIdx default).compositeType)
    | .idxLoop _ _ _ [] => some false
    | .idxLoop expL expIdx gotL (t :: rest) =>
      match matchRun fuel (.idx expL expIdx gotL t) with
      | none => none
      | some true => some true
      | some false => matchRun fuel (.idxLoop expL expIdx gotL rest)
    | .comp expL (.Func ef) gotL (.Func gf) =>
      match matchRun fuel (.vals expL ef.paramTypes gotL gf.returnTypes) with
      | none => none
      | some false => some false
      | some true => matchRun fuel (.vals expL ef.returnTypes gotL gf.returnTypes)
    | .comp expL (.Struct efs) gotL (.Struct gfs) =>
      if gfs.length < efs.length then some false
      else matchRun fuel (.fieldsLoop expL efs gotL gfs)
    | .comp expL (.Array ef) gotL (.Array gf) =>
      matchRun fuel (.fld expL ef gotL gf)
    | .comp _ _ _ _ => some false
    | .fieldsLoop _ [] _ _ => some true
    | .fieldsLoop expL (ef :: erest) gotL (gf :: grest) =>
      match matchRun fuel (.fld expL ef gotL gf) with
      | none => none
      | some false => some false
      | some true => matchRun fuel (.fieldsLoop expL erest gotL grest)
    | .fieldsLoop _ (_ :: _) _ [] => some false
    | .fld expL ef gotL gf =>
      if ef.valMut = gf.valMut then
        match matchRun fuel (.val expL ef.storage gotL gf.storage) with
        | none => none
        | some m =>
          if ef.valMut = ValMut.Var then
            match matchRun fuel (.val gotL gf.storage expL ef.storage) with
            | none => none
            | some m2 => some (m && m2)
          else some m
      else some false
    | .val expL exp gotL got =>
      if !exp.isRefType && !got.isRefType && decide (exp.getCode = got.getCode) then
        some true
      else if exp.isRefType && got.isRefType then
        if !(exp.isNullableRefType || !got.isNullableRefType) then some false
        else if exp.isAbsHeapType && got.isAbsHeapType then
          some (TypeMatcher.matchTypeCode exp.getHeapTypeCode got.getHeapTypeCode)
        else if exp.isAbsHeapType then
          some (TypeMatcher.matchTypeCode exp.getHeapTypeCode
            ((gotL.getD got.getTypeIndex default).compositeType.expand))
        else if got.isAbsHeapType then
          match got.getHeapTypeCode with
          | TypeCode.NullRef =>
            some (TypeMatcher.matchTypeCode TypeCode.AnyRef
              ((expL.getD exp.getTypeIndex default).compositeType.expand))
          | TypeCode.NullFunc =>
            some (TypeMatcher.matchTypeCode TypeCode.FuncRef
              ((expL.getD exp.getTypeIndex default).compositeType.expand))
          | TypeCode.NullExtern =>
            some (TypeMatcher.matchTypeCode TypeCode.ExternRef
              ((expL.getD exp.getTypeIndex default).compositeType.expand))
          | _ => some false
        else matchRun fuel (.idx expL exp.getTypeIndex gotL got.getTypeIndex)
      else some false
    | .vals _ [] _ [] => some true
    | .vals expL (e :: es) gotL (g :: gs) =>
      match matchRun fuel (.val expL e gotL g) with
      | none => none
      | some false => some false
      | some true => matchRun fuel (.vals expL es gotL gs)
    | .vals _ _ _ _ => some false

/-- `AST::TypeMatcher::matchType` on a defined-type index pair
(`serial_section.cpp` lines 423-438), fuel-indexed. -/
def TypeMatcher.matchType (fuel : Nat) (expL : List SubType) (expIdx : Nat)
    (gotL : List SubType) (gotIdx : Nat) : Option Bool :=
  matchRun fuel (.idx expL expIdx gotL gotIdx)

/-- `AST::TypeMatcher::matchType` on a composite type pair
(`serial_section.cpp` lines 440-477), fuel-indexed. -/
def TypeMatcher.matchCompositeType (fuel : Nat) (expL : List SubType)
    (exp : CompositeType) (gotL : List SubType) (got : CompositeType) : Option Bool :=
  matchRun fuel (.comp expL exp gotL got)

/-- `AST::TypeMatcher::matchType` on a value type pair
(`serial_section.cpp` lines 498-542), fuel-indexed. -/
def TypeMatcher.matchValType (fuel : Nat) (expL : List SubType) (exp : ValType)
    (gotL : List SubType) (got : ValType) : Option Bool :=
  matchRun fuel (.val expL exp gotL got)

/-- A runtime reference value (`RefVariant`, modelled from the spec section
4.1: a runtime `ValType` plus either a null marker or an opaque object
pointer, here an abstract address). -/
structure RefVariant where
  vtype : ValType
  payload : Option Nat
deriving DecidableEq

instance : Inhabited RefVariant := ⟨⟨default, none⟩⟩

/-- `RefVariant::isNull`: the payload is the null marker. -/
def RefVariant.isNull (r : RefVariant) : Bool := r.payload.isNone

/-- A stack value (`ValVariant`): a 32-bit integer slot or a reference.  The
other numeric variants play no role in the covered operations. -/
inductive ValVariant where
  | i32 (v : Nat)
  | ref (r : RefVariant)
deriving DecidableEq

instance : Inhabited ValVariant := ⟨ValVariant.i32 0⟩

/-- `ValVariant::get<uint32_t>` (only meaningful on the integer variant). -/
def ValVariant.getU32 : ValVariant → Nat
  | .i32 v => v
  | .ref _ => 0

/-- `packVal` from the executor's GC instruction file: mask packed `I8` / `I16`
storage to 8 / 16 bits, identity on every other storage type. -/
def packVal (t : ValType) (v : ValVariant) : ValVariant :=
  if t.isPackType then
    match t.getCode with
    | TypeCode.I8 => ValVariant.i32 (v.getU32 &&& 0xFF)
    | TypeCode.I16 => ValVariant.i32 (v.getU32 &&& 0xFFFF)
    | _ => v
  else v

/-- The in-place packing loop of `Executor::runStructNewOp`:
`Vals[I] = packVal(FieldTypes[I].getStorageType(), Vals[I])` for each index. -/
def packFields : List FieldType → List ValVariant → List ValVariant
  | ft :: fts, v :: vs => packVal ft.storage v :: packFields fts vs
  | _, vs => vs

/-- `Runtime::Instance::StructInstance` (`runtime/instance/struct.h`): the
composite type and the field data vector. -/
structure StructInstance where
  compType : CompositeType
  data : List ValVariant
deriving DecidableEq

/-- `StructInstance::getData`. -/
def StructInstance.getData (s : StructInstance) (i : Nat) : ValVariant :=
  s.data.getD i default

/-- `Runtime::HeapManager::newStruct(CompType, Vals)` (`runtime/heapmgr.h`):
allocate a struct instance holding exactly the given data vector. -/
def HeapManager.newStruct (comp : CompositeType) (vals : List ValVariant) : StructInstance :=
  ⟨comp, vals⟩

/-- Modelled from the spec: `Runtime::StackManager` is not in the provided
sources.  The value stack is a list with the most recently pushed value at the
head; spec section 4.5 has `struct.new ct` pop `v0 ... v_(n-1)` with `v_i`
feeding field `i`, so `pop n` returns the popped operands earliest-pushed
first. -/
def StackManager.pop (n : Nat) (stack : List ValVariant) : List ValVariant :=
  (stack.take n).reverse

/-- `Executor::runStructNewOp` (non-default path of `part_000` lines 86-101):
pop one operand per field, pack each per its field's storage type, allocate.
Returns the allocated struct and the remaining stack (the pushed result
reference is abstracted away). -/
def Executor.runStructNewOp (comp : CompositeType) (stack : List ValVariant)
    (isDefault : Bool) : StructInstance × List ValVariant :=
  if isDefault then
    (⟨comp, List.replicate comp.getFieldTypes.length default⟩, stack)
  else
    let n := comp.getFieldTypes.length
    let vals := StackManager.pop n stack
    (HeapManager.newStruct comp (packFields comp.getFieldTypes vals), stack.drop n)

/-- Modelled from the spec: `Runtime::Instance::DataInstance::loadValue` is not
in the provided sources; per spec section 4.5 (and scenario S2) it reads the
given number of bytes at the byte offset, little-endian, zero-extended. -/
def DataInstance.loadValue (data : List Nat) (offset : Nat) : Nat → Nat
  | 0 => 0
  | len + 1 => data.getD offset 0 + 256 * DataInstance.loadValue data (offset + 1) len

/-- `Executor::runArrayNewDataOp` (`part_000` lines 121-145).  The segment is
its byte list; `s` and `n` are the popped offset and count.  The source guard
is `uint64(S) + uint64(N) * BSize >= DataInst.getData().size()` (exact in
`Nat`: no 64-bit wraparound is reachable from 32-bit `S`, `N`). -/
def Executor.runArrayNewDataOp (comp : CompositeType) (dataBytes : List Nat)
    (s n : Nat) : Except ErrCode (List ValVariant) :=
  let bsize := ((comp.getFieldTypes.getD 0 default).storage).getBitWidth / 8
  if s + n * bsize ≥ dataBytes.length then
    Except.error ErrCode.LengthOutOfBounds
  else
    Except.ok ((List.range n).map fun idx =>
      ValVariant.i32 (DataInstance.loadValue dataBytes (s + idx * bsize) bsize))

/-- The same operation with the bound the spec states (spec section 4.5:
fails `LengthOutOfBounds` if `s + n * width` exceeds the segment, strict
inequality per the scenario table and the data-segment note). -/
def specArrayNewDataOp (comp : CompositeType) (dataBytes : List Nat)
    (s n : Nat) : Except ErrCode (List ValVariant) :=
  let bsize := ((comp.getFieldTypes.getD 0 default).storage).getBitWidth / 8
  if s + n * bsize > dataBytes.length then
    Except.error ErrCode.LengthOutOfBounds
  else
    Except.ok ((List.range n).map fun idx =>
      ValVariant.i32 (DataInstance.loadValue dataBytes (s + idx * bsize) bsize))

/-- `Executor::runArrayNewElemOp` (`part_000` lines 147-167).  The element
segment is its reference list; the source guard is
`uint64(S) + uint64(N) >= ElemSrc.size()`, and on success the new array holds
`ElemSrc[S .. S+N-1]`. -/
def Executor.runArrayNewElemOp (elemRefs : List RefVariant)
    (s n : Nat) : Except ErrCode (List RefVariant) :=
  if s + n ≥ elemRefs.length then
    Except.error ErrCode.LengthOutOfBounds
  else
    Except.ok ((elemRefs.drop s).take n)

/-- The same operation with the bound the spec states (`s + n > size`). -/
def specArrayNewElemOp (elemRefs : List RefVariant)
    (s n : Nat) : Except ErrCode (List RefVariant) :=
  if s + n > elemRefs.length then
    Except.error ErrCode.LengthOutOfBounds
  else
    Except.ok ((elemRefs.drop s).take n)

/-- `Executor::runRefIsNullOp` (`part_000` lines 52-55): the pushed `i32`. -/
def Executor.runRefIsNullOp (r : RefVariant) : Nat :=
  if r.isNull then 1 else 0

/-- `Executor::runRefAsNonNullOp` (`part_000` lines 73-84): the outcome and
the final value of the in-out reference operand (unchanged on failure). -/
def Executor.runRefAsNonNullOp (r : RefVariant) : Except ErrCode Unit × RefVariant :=
  if r.isNull then
    (Except.error ErrCode.CastNullToNonNull, r)
  else
    (Except.ok (), ⟨toNonNullableRef r.vtype, r.payload⟩)

/-- What `Executor::runRefTestOp` leaves on top of the stack. -/
inductive RefTestResult where
  | pushI32 (v : Nat)
  | keepRef (r : RefVariant)
  | trap (e : ErrCode)
deriving DecidableEq

/-- `Executor::runRefTestOp` (`part_000` lines 184-206), handling both
`ref.test` (`isCast = false`) and `ref.cast` (`isCast = true`); the matcher is
fuel-indexed, so the result is `none` when the match itself does not finish. -/
def Executor.runRefTestOp (tList : List SubType) (instrVT : ValType)
    (val : RefVariant) (isCast : Bool) (fuel : Nat) : Option RefTestResult :=
  match TypeMatcher.matchValType fuel tList instrVT tList val.vtype with
  | none => none
  | some true =>
    if isCast then some (RefTestResult.keepRef val)
    else some (RefTestResult.pushI32 1)
  | some false =>
    if isCast then some (RefTestResult.trap ErrCode.CastNullToNonNull)
    else some (RefTestResult.pushI32 0)

/-- `Executor::runRefExternConvToOp` (`part_000` lines 208-216): a null input
becomes a null of the nullable target type; a non-null input is re-tagged with
the non-nullable `ExternRef` type (hard-coded in the source), payload kept. -/
def Executor.runRefExternConvToOp (r : RefVariant) (tcode : TypeCode) : RefVariant :=
  if r.isNull then
    ⟨ValType.ref true (HeapType.abs tcode), none⟩
  else
    ⟨ValType.ref false (HeapType.abs TypeCode.ExternRef), r.payload⟩

/-- `MemoryInstance::kPageSize`. -/
def MemoryInstance.kPageSize : Nat := 65536

/-- Modulus of 64-bit unsigned arithmetic. -/
def U64SIZE : Nat := 18446744073709551616

/-- `Runtime::Instance::MemoryInstance::checkAccessBound` (`part_003` lines
74-83) with the `uint64` arithmetic explicit: `Offset` and `Length` are
`uint64` values, `getMin()` is the `uint32` page minimum of `AST::Limit`. -/
def MemoryInstance.checkAccessBound (minPages offset length : Nat) : Bool :=
  let limit := (minPages * MemoryInstance.kPageSize) % U64SIZE
  decide (U64SIZE - 1 - offset ≥ length) && decide ((offset + length) % U64SIZE ≤ limit)

/-- The claim's reading of the abstract heap-type poset, following its words:
equal codes; the bottom of the expected code's family; the three codes (plus
bottom) under `EqRef`; the whole any-family under `AnyRef`; everything else,
cross-family pairs included, is `false`. -/
def specAbstractMatch (exp got : TypeCode) : Bool :=
  decide (exp = got)
  || (decide (got = TypeCode.NullRef)
      && decide (exp ∈ [TypeCode.I31Ref, TypeCode.StructRef, TypeCode.ArrayRef,
                        TypeCode.EqRef, TypeCode.AnyRef]))
  || (decide (got = TypeCode.NullFunc) && decide (exp = TypeCode.FuncRef))
  || (decide (got = TypeCode.NullExtern) && decide (exp = TypeCode.ExternRef))
  || (decide (exp = TypeCode.EqRef)
      && decide (got ∈ [TypeCode.NullRef, TypeCode.I31Ref, TypeCode.StructRef,
                        TypeCode.ArrayRef]))
  || (decide (exp = TypeCode.AnyRef)
      && decide (got ∈ [TypeCode.EqRef, TypeCode.I31Ref, TypeCode.StructRef,
                        TypeCode.ArrayRef, TypeCode.NullRef]))

/-- The any-hierarchy abstract codes. -/
def absAnyFamily : List TypeCode :=
  [TypeCode.AnyRef, TypeCode.EqRef, TypeCode.I31Ref, TypeCode.StructRef,
   TypeCode.ArrayRef, TypeCode.NullRef]

/-- The func-hierarchy abstract codes. -/
def absFuncFamily : List TypeCode := [TypeCode.FuncRef, TypeCode.NullFunc]

/-- The extern-hierarchy abstract codes. -/
def absExternFamily : List TypeCode := [TypeCode.ExternRef, TypeCode.NullExtern]

/-- All abstract heap-type codes of the three families. -/
def absHeapCodes : List TypeCode := absAnyFamily ++ absFuncFamily ++ absExternFamily

/-- Two codes drawn from two different families. -/
def crossFamily (e g : TypeCode) : Prop :=
  (e ∈ absAnyFamily ∧ g ∈ absFuncFamily) ∨ (e ∈ absAnyFamily ∧ g ∈ absExternFamily)
  ∨ (e ∈ absFuncFamily ∧ g ∈ absAnyFamily) ∨ (e ∈ absFuncFamily ∧ g ∈ absExternFamily)
  ∨ (e ∈ absExternFamily ∧ g ∈ absAnyFamily) ∨ (e ∈ absExternFamily ∧ g ∈ absFuncFamily)

/-- The i16 array type of spec scenario S2. -/
def arrI16 : CompositeType :=
  CompositeType.Array ⟨ValType.num TypeCode.I16, ValMut.Const⟩

/-- The 6-byte data segment `01 00 02 00 03 00` of spec scenario S2. -/
def segS2 : List Nat := [1, 0, 2, 0, 3, 0]

/-- The one-parameter, zero-result function type used against claim C2. -/
def funcI32 : CompositeType :=
  CompositeType.Func ⟨[ValType.num TypeCode.I32], []⟩

/-- A self-referential struct type body: one constant field of nullable
reference type pointing at defined type `i`. -/
def selfStructField (i : Nat) : FieldType :=
  ⟨ValType.ref true (HeapType.defined i), ValMut.Const⟩

/-- A type list with two structurally identical self-referential struct types:
type 0 is `struct { (ref null 0) const }` and type 1 is
`struct { (ref null 1) const }`.  Matching index 1 against index 0 cycles. -/
def cycTL : List SubType :=
  [⟨false, [], CompositeType.Struct [selfStructField 0]⟩,
   ⟨false, [], CompositeType.Struct [selfStructField 1]⟩]

/-- The pending calls the cyclic match of `cycTL` keeps revisiting. -/
def cycTaskA : MatchTask := MatchTask.idx cycTL 1 cycTL 0

/-- The supertype loop step of the cyclic match (type 0 has no supertypes). -/
def cycTaskL : MatchTask := MatchTask.idxLoop cycTL 1 cycTL []

/-- The composite step of the cyclic match. -/
def cycTaskB : MatchTask :=
  MatchTask.comp cycTL (CompositeType.Struct [selfStructField 1])
    cycTL (CompositeType.Struct [selfStructField 0])

/-- The struct field loop step of the cyclic match. -/
def cycTaskC : MatchTask :=
  MatchTask.fieldsLoop cycTL [selfStructField 1] cycTL [selfStructField 0]

/-- The field pair step of the cyclic match. -/
def cycTaskD : MatchTask :=
  MatchTask.fld cycTL (selfStructField 1) cycTL (selfStructField 0)

/-- The value type pair step of the cyclic match, which recurses back to the
index pair `(1, 0)`. -/
def cycTaskE : MatchTask :=
  MatchTask.val cycTL (selfStructField 1).storage cycTL (selfStructField 0).storage

/-- The nullable `anyref` value type. -/
def anyRefNull : ValType := ValType.ref true (HeapType.abs TypeCode.AnyRef)

/-- A null reference carrying the nullable `nullref` (bottom) type. -/
def nullBottomRef : RefVariant := ⟨ValType.ref true (HeapType.abs TypeCode.NullRef), none⟩

/-- A non-null reference of non-nullable `anyref` type at abstract address 7. -/
def nonNullAnyRef : RefVariant := ⟨ValType.ref false (HeapType.abs TypeCode.AnyRef), some 7⟩

/-- Two distinct non-null references, used as a two-element element segment. -/
def elemSegPair : List RefVariant :=
  [⟨ValType.ref false (HeapType.abs TypeCode.FuncRef), some 1⟩,
   ⟨ValType.ref false (HeapType.abs TypeCode.FuncRef), some 2⟩]

/-- The struct type of spec scenario S1: a mutable `i8` field then a constant
`i32` field. -/
def structS1 : List FieldType :=
  [⟨ValType.num TypeCode.I8, ValMut.Var⟩, ⟨ValType.num TypeCode.I32, ValMut.Const⟩]

/-- The operand list of spec scenario S1, in push order. -/
def valsS1 : List ValVariant := [ValVariant.i32 0x1FF, ValVariant.i32 42]

/- ================= theorems ================= -/

/-- Helper: the packing loop at index `i` packs the `i`-th popped value with
the `i`-th field's storage type. -/
theorem packFields_getD (fs : List FieldType) (vs : List ValVariant) (i : Nat)
    (hlen : vs.length = fs.length) (hi : i < fs.length) :
    (packFields fs vs).getD i default
      = packVal ((fs.getD i default).storage) (vs.getD i default) := by
  induction fs generalizing vs i with
  | nil => simp at hi
  | cons f ft ih =>
    cases vs with
    | nil => simp at hlen
    | cons v vt =>
      cases i with
      | zero => simp [packFields]
      | succ j =>
        simp only [packFields, List.getD_cons_succ]
        apply ih
        · simpa using hlen
        · simpa using hi

/-- Helper: the chain of pending calls of the cyclic defined-type match never
completes, at any fuel. -/
theorem cyc_chain (m : Nat) :
    matchRun m cycTaskA = none ∧ matchRun m cycTaskB = none
    ∧ matchRun m cycTaskC = none ∧ matchRun m cycTaskD = none
    ∧ matchRun m cycTaskE = none := by
  induction m with
  | zero => exact ⟨rfl, rfl, rfl, rfl, rfl⟩
  | succ k ih =>
    obtain ⟨hA, hB, hC, hD, hE⟩ := ih
    refine ⟨?_, ?_, ?_, ?_, ?_⟩
    · cases k with
      | zero => rfl
      | succ j =>
        show matchRun (j + 1) cycTaskB = none
        exact hB
    · show matchRun k cycTaskC = none
      exact hC
    · show (match matchRun k cycTaskD with
        | none => none
        | some false => some false
        | some true => matchRun k (MatchTask.fieldsLoop cycTL [] cycTL [])) = none
      rw [hD]
    · show (match matchRun k cycTaskE with
        | none => none
        | some m =>
          if (selfStructField 1).valMut = ValMut.Var then
            match matchRun k (MatchTask.val cycTL (selfStructField 0).storage
                cycTL (selfStructField 1).storage) with
            | none => none
            | some m2 => some (m && m2)
          else some m) = none
      rw [hE]
    · show matchRun k cycTaskA = none
      exact hA

/-- Claim C1: `array.new_data` is specified to fail `LengthOutOfBounds` only
when `s + n * width` strictly exceeds the segment size, and to succeed on the
6-byte i16 segment with `s = 0`, `n = 3`, producing values 1, 2, 3.  The
source guard uses `>=`, so it rejects exactly that input, which the
spec-stated strict bound accepts with the expected values. -/
theorem arrayNewData_exact_fit_rejected :
    Executor.runArrayNewDataOp arrI16 segS2 0 3 = Except.error ErrCode.LengthOutOfBounds
    ∧ specArrayNewDataOp arrI16 segS2 0 3
      = Except.ok [ValVariant.i32 1, ValVariant.i32 2, ValVariant.i32 3] :=
  ⟨rfl, rfl⟩

/-- Claim C2: the source's Func-vs-Func rule compares the expected type's
parameter list against the got type's result list, so a one-parameter,
zero-result function type fails to match itself, although both its parameter
lists and its result lists match pairwise (in either direction). -/
theorem funcMatch_params_vs_returns :
    TypeMatcher.matchCompositeType 9 [] funcI32 [] funcI32 = some false
    ∧ matchRun 9 (MatchTask.vals [] [ValType.num TypeCode.I32]
        [] [ValType.num TypeCode.I32]) = some true
    ∧ matchRun 9 (MatchTask.vals [] [] [] []) = some true :=
  ⟨rfl, rfl, rfl⟩

/-- Claim C3: the defined-type matcher is not total: on a type list with two
structurally identical self-referential struct types, matching index 1 against
index 0 revisits the same index pair forever (the fueled unfolding exhausts
every fuel bound), where the spec requires termination via memoization. -/
theorem matchType_diverges_on_cycle :
    ∀ fuel, TypeMatcher.matchType fuel cycTL 1 cycTL 0 = none :=
  fun fuel => (cyc_chain fuel).1

/-- Claim C4 (amended): `ref.cast` fails with `CastNullToNonNull` exactly when
the match fails, and on success leaves the reference on the stack unchanged
(it does not re-tag it); `ref.test` on the same inputs never fails and pushes
1 iff the match holds. -/
theorem refCast_error_and_value (tList : List SubType) (rt : ValType)
    (r : RefVariant) (fuel : Nat) (b : Bool)
    (h : TypeMatcher.matchValType fuel tList rt tList r.vtype = some b) :
    (Executor.runRefTestOp tList rt r true fuel
        = some (RefTestResult.trap ErrCode.CastNullToNonNull) ↔ b = false)
    ∧ (Executor.runRefTestOp tList rt r true fuel
        = some (RefTestResult.keepRef r) ↔ b = true)
    ∧ Executor.runRefTestOp tList rt r false fuel
        = some (RefTestResult.pushI32 (if b then 1 else 0)) := by
  unfold Executor.runRefTestOp
  rw [h]
  cases b <;> simp

/-- Witness for claim C4's theorem at a concrete input: casting a null
reference of bottom type to nullable `anyref` matches (with fuel 1). -/
theorem refCast_error_and_value_witness :
    (Executor.runRefTestOp [] anyRefNull nullBottomRef true 1
        = some (RefTestResult.trap ErrCode.CastNullToNonNull) ↔ true = false)
    ∧ (Executor.runRefTestOp [] anyRefNull nullBottomRef true 1
        = some (RefTestResult.keepRef nullBottomRef) ↔ true = true)
    ∧ Executor.runRefTestOp [] anyRefNull nullBottomRef false 1
        = some (RefTestResult.pushI32 (if true then 1 else 0)) :=
  refCast_error_and_value [] anyRefNull nullBottomRef 1 true (by decide)

/-- Counterexample to claim C4 as stated: this successful `ref.cast` keeps the
operand's original runtime type, which differs from the target type `rt`, so
the stack top is not re-tagged with `rt`. -/
theorem refCast_no_retag_counterexample :
    Executor.runRefTestOp [] anyRefNull nullBottomRef true 5
      = some (RefTestResult.keepRef nullBottomRef)
    ∧ nullBottomRef.vtype ≠ anyRefNull := by
  exact ⟨rfl, by decide⟩

/-- Claim C5: on a non-null reference the conversion handler re-tags with the
hard-coded non-nullable `ExternRef` type even when the target code is
`AnyRef` (the `any.convert_extern` direction), so the result type is not the
target's `Ref` form; the payload is kept and the null branch does follow the
target code. -/
theorem refExternConvTo_hardcodes_externref :
    Executor.runRefExternConvToOp nonNullAnyRef TypeCode.AnyRef
      = ⟨ValType.ref false (HeapType.abs TypeCode.ExternRef), some 7⟩
    ∧ (Executor.runRefExternConvToOp nonNullAnyRef TypeCode.AnyRef).vtype
      ≠ ValType.ref false (HeapType.abs TypeCode.AnyRef)
    ∧ Executor.runRefExternConvToOp
        ⟨ValType.ref true (HeapType.abs TypeCode.ExternRef), none⟩ TypeCode.AnyRef
      = ⟨ValType.ref true (HeapType.abs TypeCode.AnyRef), none⟩ :=
  ⟨rfl, by decide, rfl⟩

/-- Claim C6: `array.new_elem` is specified to fail only when `s + n` strictly
exceeds the segment size and to succeed with the whole segment when
`s + n = size`; the source guard uses `>=`, so it rejects the exact-fit input
that the spec-stated strict bound accepts with references `s .. s+n-1`. -/
theorem arrayNewElem_exact_fit_rejected :
    Executor.runArrayNewElemOp elemSegPair 0 2 = Except.error ErrCode.LengthOutOfBounds
    ∧ specArrayNewElemOp elemSegPair 0 2 = Except.ok elemSegPair :=
  ⟨rfl, rfl⟩

/-- Claim C7: `ref.as_non_null` fails with `CastNullToNonNull` exactly when
`ref.is_null` would push 1; a failing invocation leaves the operand
unchanged; a succeeding one keeps the payload and re-tags the type as
non-nullable. -/
theorem refAsNonNull_fails_iff_null (r : RefVariant) :
    ((Executor.runRefAsNonNullOp r).1 = Except.error ErrCode.CastNullToNonNull
      ↔ Executor.runRefIsNullOp r = 1)
    ∧ (Executor.runRefIsNullOp r = 1 → (Executor.runRefAsNonNullOp r).2 = r)
    ∧ (Executor.runRefIsNullOp r = 0 →
        (Executor.runRefAsNonNullOp r).1 = Except.ok ()
        ∧ ((Executor.runRefAsNonNullOp r).2).payload = r.payload
        ∧ ((Executor.runRefAsNonNullOp r).2).vtype = toNonNullableRef r.vtype
        ∧ (r.vtype.isRefType = true →
            ((Executor.runRefAsNonNullOp r).2).vtype.isNullableRefType = false)) := by
  obtain ⟨t, p⟩ := r
  cases p with
  | none =>
    simp [Executor.runRefAsNonNullOp, Executor.runRefIsNullOp, RefVariant.isNull]
  | some a =>
    cases t with
    | num c =>
      simp [Executor.runRefAsNonNullOp, Executor.runRefIsNullOp, RefVariant.isNull,
        toNonNullableRef, ValType.isRefType]
    | ref nb h =>
      simp [Executor.runRefAsNonNullOp, Executor.runRefIsNullOp, RefVariant.isNull,
        toNonNullableRef, ValType.isRefType, ValType.isNullableRefType]

/-- Claim C8: `struct.new` pops one operand per field, the value pushed
earlier feeding the lower field index, and stores `packVal` of each operand
per its field's storage type. -/
theorem structNew_packs_fields (fields : List FieldType) (vs rest : List ValVariant)
    (i : Nat) (hlen : vs.length = fields.length) (hi : i < fields.length) :
    ((Executor.runStructNewOp (CompositeType.Struct fields) (vs.reverse ++ rest)
        false).1).getData i
      = packVal ((fields.getD i default).storage) (vs.getD i default) := by
  unfold Executor.runStructNewOp StackManager.pop HeapManager.newStruct
  simp only [if_neg Bool.false_ne_true, CompositeType.getFieldTypes]
  have htake : (vs.reverse ++ rest).take fields.length = vs.reverse := by
    rw [← hlen, ← List.length_reverse vs]
    exact List.take_left vs.reverse rest
  rw [htake, List.reverse_reverse]
  exact packFields_getD fields vs i hlen hi

/-- Witness for claim C8's theorem at spec scenario S1: field 0 of
`struct.new` on operands `0x1FF`, `42` stores `0x1FF` packed to `0xFF`. -/
theorem structNew_packs_fields_witness :
    ((Executor.runStructNewOp (CompositeType.Struct structS1) (valsS1.reverse ++ [])
        false).1).getData 0
      = packVal ((structS1.getD 0 default).storage) (valsS1.getD 0 default) :=
  structNew_packs_fields structS1 valsS1 [] 0 (by decide) (by decide)

/-- Claim C9: on the ten abstract heap-type codes the source matcher decides
exactly the poset stated by the spec, and every cross-family pair is false. -/
theorem abstractHeapMatch_decides_poset :
    (∀ e g, e ∈ absHeapCodes → g ∈ absHeapCodes →
      TypeMatcher.matchTypeCode e g = specAbstractMatch e g)
    ∧ (∀ e g, crossFamily e g → TypeMatcher.matchTypeCode e g = false) := by
  constructor
  · decide
  · unfold crossFamily
    decide

/-- Claim C10: the memory access guard accepts exactly when the exact
mathematical sum `offset + length` is at most `minPages * 65536`; in
particular a sum that wraps 64-bit arithmetic is always rejected. -/
theorem checkAccessBound_exact_sum (minPages offset length : Nat)
    (hMin : minPages < 4294967296) (hOff : offset < U64SIZE) (hLen : length < U64SIZE) :
    (MemoryInstance.checkAccessBound minPages offset length = true
      ↔ offset + length ≤ minPages * MemoryInstance.kPageSize) := by
  unfold MemoryInstance.checkAccessBound MemoryInstance.kPageSize U64SIZE
  unfold U64SIZE at hOff hLen
  simp only [Bool.and_eq_true, decide_eq_true_eq]
  have hlim : minPages * 65536 < 18446744073709551616 := by omega
  rw [Nat.mod_eq_of_lt hlim]
  constructor
  · rintro ⟨ha, hb⟩
    have hs : offset + length < 18446744073709551616 := by omega
    rwa [Nat.mod_eq_of_lt hs] at hb
  · intro hle
    have hs : offset + length < 18446744073709551616 := by omega
    exact ⟨by omega, by rw [Nat.mod_eq_of_lt hs]; exact hle⟩

/-- Witness for claim C10's theorem at a concrete input: one page, offset 0,
length 65536 is exactly in bounds. -/
theorem checkAccessBound_exact_sum_witness :
    MemoryInstance.checkAccessBound 1 0 65536 = true
      ↔ 0 + 65536 ≤ 1 * MemoryInstance.kPageSize :=
  checkAccessBound_exact_sum 1 0 65536 (by decide) (by norm_num [U64SIZE]) (by norm_num [U64SIZE])

end WasmEdge
